import Mathlib

/-!
Shallow embedding of the simple hypervisor control core in
`src/arceos/exercises/simple_hv/src/main.rs`: the VM-exit dispatcher
(`vmexit_handler`), the control loop of `main`, guest-context
initialization (`prepare_guest_context`) and stage-2 translation
activation (`prepare_vm_pgtable`).

Machine integers (`usize`, RISC-V CSRs) are modelled as `Nat`; where the
source performs wrapping 64-bit arithmetic or bitwise operations on a
64-bit register the result is reduced modulo `2 ^ 64`.  The guest
general-purpose register file (`GeneralPurposeRegisters` in `regs.rs`,
a fixed array of 32 `usize` values) is modelled as `Fin 32 → Nat`.
-/

namespace SimpleHv

/-- Trap exception causes, mirroring the closed `scause::Exception` enum of
the riscv register crate used by the source (H-extension aware). -/
inductive TrapException where
  | InstructionMisaligned
  | InstructionFault
  | IllegalInstruction
  | Breakpoint
  | LoadMisaligned
  | LoadFault
  | StoreMisaligned
  | StoreFault
  | UserEnvCall
  | SupervisorEnvCall
  | VirtualSupervisorEnvCall
  | InstructionPageFault
  | LoadPageFault
  | StorePageFault
  | InstructionGuestPageFault
  | LoadGuestPageFault
  | VirtualInstruction
  | StoreGuestPageFault
  | Unknown
deriving DecidableEq, Repr

/-- Trap interrupt causes, mirroring the closed `scause::Interrupt` enum of
the riscv register crate used by the source. -/
inductive TrapInterrupt where
  | UserSoft
  | VirtualSupervisorSoft
  | SupervisorSoft
  | MachineSoft
  | UserTimer
  | VirtualSupervisorTimer
  | SupervisorTimer
  | MachineTimer
  | UserExternal
  | VirtualSupervisorExternal
  | SupervisorExternal
  | MachineExternal
  | Unknown
deriving DecidableEq, Repr

/-- The trap-cause register value, mirroring `scause::Trap`. -/
inductive Trap where
  | exception (e : TrapException)
  | interrupt (i : TrapInterrupt)
deriving DecidableEq, Repr

/-- Architectural index of register a0 in the 32-entry register file
(`GprIndex::A0` in `regs.rs`). -/
def GprIndexA0 : Fin 32 := 10

/-- Architectural index of register a1 in the 32-entry register file
(`GprIndex::A1` in `regs.rs`). -/
def GprIndexA1 : Fin 32 := 11

/-- The guest general-purpose register file: 32 `usize` registers. -/
def Gprs : Type := Fin 32 → Nat

/-- `GeneralPurposeRegisters::set_reg`: write value `v` to register `idx`. -/
def set_reg (g : Gprs) (idx : Fin 32) (v : Nat) : Gprs :=
  fun j => if j = idx then v else g j

/-- `GeneralPurposeRegisters::a_regs`: the slice a0..a7 of the register
file, i.e. entries 10..17; slot `i` of the slice is register `10 + i`. -/
def a_regs (g : Gprs) : Fin 8 → Nat :=
  fun i => g ⟨10 + i.val, by omega⟩

/-- The guest register/control-state snapshot (`GuestCpuState` fields of
`VmCpuRegisters` used by the dispatcher): register file, resume program
counter `sepc`, and the saved `hstatus` / `sstatus` control values. -/
structure GuestRegs where
  gprs : Gprs
  sepc : Nat
  hstatus : Nat
  sstatus : Nat

/-- The per-vCPU register context (`VmCpuRegisters`); only the guest part
is relevant to the dispatcher. -/
structure VmCpuRegisters where
  guest_regs : GuestRegs

/-- The process-wide CSR state touched by the dispatcher: the
virtual-interrupt-pending register `hvip` and the supervisor
interrupt-enable register `sie`. -/
structure CsrState where
  hvip : Nat
  sie : Nat

/-- Modelled from the spec: the hypervisor-call message type (`SbiMessage`
in `sbi.rs`, not under `src/`).  Per §3 and §4.4 of the spec it is a
closed tagged variant recognizing exactly one request: a system-reset
request carrying two opaque reason values. -/
inductive SbiMessage where
  | Reset (reason0 reason1 : Nat)
deriving DecidableEq, Repr

/-- Modelled from the spec: the extension identifier of the single
extension this core understands (system reset).  The spec gives no
concrete number; the standard SBI system-reset extension id is used. -/
def EID_SYSTEM_RESET : Nat := 0x53525354

/-- Modelled from the spec: the function identifier of the system-reset
call within the reset extension. -/
def FID_SYSTEM_RESET : Nat := 0

/-- Modelled from the spec: `SbiMessage::from_regs` (`sbi.rs`, not under
`src/`).  Per §4.4 it reads the extension identifier (slice slot 7 = a7)
and the function identifier (slot 6 = a6) from the a-register slice,
recognizes only the system-reset extension, and returns the two call
arguments (slots 0 and 1 = a0, a1) as opaque reason codes; any other
identifier pair is a decode failure (`none`). -/
def SbiMessage.from_regs (a : Fin 8 → Nat) : Option SbiMessage :=
  if a 7 = EID_SYSTEM_RESET ∧ a 6 = FID_SYSTEM_RESET then
    some (SbiMessage.Reset (a 0) (a 1))
  else
    none

/-- Outcome of one dispatcher invocation.  `Continue`/`Shutdown` carry the
context and CSR state after the handler (the source returns `false` /
`true` respectively and mutates in place); `Abort` models a `panic!` or a
failed `assert_eq!`, carrying the context and CSR state as they stand at
the moment of the abort. -/
inductive DispatchResult where
  | Continue (ctx : VmCpuRegisters) (csr : CsrState)
  | Shutdown (ctx : VmCpuRegisters) (csr : CsrState)
  | Abort (ctx : VmCpuRegisters) (csr : CsrState)

/-- Whether a dispatch result is `Continue`. -/
def DispatchResult.isContinue : DispatchResult → Bool
  | .Continue _ _ => true
  | _ => false

/-- Modelled from the spec: the hvip bit forwarded to the guest as the
virtual supervisor timer pending bit
(`traps::interrupt::VIRTUAL_SUPERVISOR_TIMER` in `csrs.rs`, not under
`src/`); architecturally bit 6 (VSTIP). -/
def VIRTUAL_SUPERVISOR_TIMER : Nat := 1 <<< 6

/-- Modelled from the spec: the sie bit enabling the host supervisor timer
interrupt (`traps::interrupt::SUPERVISOR_TIMER` in `csrs.rs`, not under
`src/`); architecturally bit 5 (STIE). -/
def SUPERVISOR_TIMER : Nat := 1 <<< 5

/-- The sentinel illegal-instruction encoding emulated by the dispatcher
(`csrr a1, mhartid`, the one privileged identification-register read). -/
def SENTINEL_INSTR : Nat := 0xf14025f3

/-- `vmexit_handler` (`main.rs` lines 82-164).  Inputs are the trap cause
(`scause`), the raw trap value (`stval`), the vCPU context and the CSR
state; the result carries the updated context/CSR state and whether the
run continues, shuts down, or aborts.

Branch notes, traced from the source:
- `VirtualSupervisorEnvCall`: decode via `SbiMessage::from_regs`; on a
  `Reset` message the source executes `assert_eq!(a0, 0x6688)` and
  `assert_eq!(a1, 0x1234)` and then `return true`; a failed assertion is
  a panic (`Abort`).  A decode failure is `panic!("bad sbi message! ")`.
  The source's `_ => {}` arm over other message variants is unreachable
  under the spec's one-variant message type.
- `IllegalInstruction`: the faulting word is `stval::read() as u32`,
  i.e. `stval % 2^32`; the sentinel encoding is emulated (a0 := 0x6688,
  a1 := 0x1234, sepc += 4, continue), anything else panics.
- `LoadGuestPageFault`: `sepc += 4` and continue (the `panic!` after the
  `return false` in the source is unreachable).
- `SupervisorTimer` interrupt: `hvip |= VIRTUAL_SUPERVISOR_TIMER`,
  `sie &= !SUPERVISOR_TIMER`, continue.
- every other cause: `panic!("Unhandled trap: ...")`. -/
def vmexit_handler (cause : Trap) (stval : Nat) (ctx : VmCpuRegisters)
    (csr : CsrState) : DispatchResult :=
  match cause with
  | .exception .VirtualSupervisorEnvCall =>
    match SbiMessage.from_regs (a_regs ctx.guest_regs.gprs) with
    | some (SbiMessage.Reset _ _) =>
      let a0 := ctx.guest_regs.gprs GprIndexA0
      let a1 := ctx.guest_regs.gprs GprIndexA1
      if a0 = 0x6688 then
        if a1 = 0x1234 then
          DispatchResult.Shutdown ctx csr
        else
          DispatchResult.Abort ctx csr
      else
        DispatchResult.Abort ctx csr
    | none => DispatchResult.Abort ctx csr
  | .exception .IllegalInstruction =>
    let instr := stval % 2 ^ 32
    if instr = SENTINEL_INSTR then
      DispatchResult.Continue
        { ctx with guest_regs :=
          { ctx.guest_regs with
            gprs := set_reg (set_reg ctx.guest_regs.gprs GprIndexA0 0x6688)
              GprIndexA1 0x1234
            sepc := (ctx.guest_regs.sepc + 4) % 2 ^ 64 } }
        csr
    else
      DispatchResult.Abort ctx csr
  | .exception .LoadGuestPageFault =>
    DispatchResult.Continue
      { ctx with guest_regs :=
        { ctx.guest_regs with sepc := (ctx.guest_regs.sepc + 4) % 2 ^ 64 } }
      csr
  | .interrupt .SupervisorTimer =>
    DispatchResult.Continue ctx
      { csr with
        hvip := csr.hvip ||| VIRTUAL_SUPERVISOR_TIMER
        sie := csr.sie &&& ((2 ^ 64 - 1) ^^^ SUPERVISOR_TIMER) }
  | _ => DispatchResult.Abort ctx csr

/-- One VM exit as observed by the host: the trap cause and trap value
deposited by hardware when `_run_guest` returns. -/
structure VmExit where
  cause : Trap
  stval : Nat

/-- Result of the control loop of `main`
(`while !run_guest(&mut ctx) {}`).  The `Nat` counts the `_run_guest`
(guest entry) calls made.  `shutdown`: the dispatcher returned `true` and
the loop ended; `aborted`: a handler panicked; `outOfFuel`: the supplied
exit trace was exhausted while the loop would have re-entered the guest. -/
inductive LoopResult where
  | shutdown (entries : Nat)
  | aborted (entries : Nat)
  | outOfFuel (entries : Nat)
deriving DecidableEq, Repr

/-- The control loop of `main` (`main.rs` line 55), driven by a trace of
VM exits: each consumed `VmExit` corresponds to exactly one `_run_guest`
call followed by one `vmexit_handler` invocation. -/
def run_loop : List VmExit → VmCpuRegisters → CsrState → LoopResult
  | [], _, _ => LoopResult.outOfFuel 0
  | e :: rest, ctx, csr =>
    match vmexit_handler e.cause e.stval ctx csr with
    | .Shutdown _ _ => LoopResult.shutdown 1
    | .Abort _ _ => LoopResult.aborted 1
    | .Continue ctx' csr' =>
      match run_loop rest ctx' csr' with
      | .shutdown n => LoopResult.shutdown (n + 1)
      | .aborted n => LoopResult.aborted (n + 1)
      | .outOfFuel n => LoopResult.outOfFuel (n + 1)

/-- Hardware-visible events relevant to stage-2 translation setup and
guest entry. -/
inductive HwEvent where
  | writeHgatp (v : Nat)
  | hfenceGvmaAll
  | enterGuest
deriving DecidableEq, Repr

/-- `prepare_vm_pgtable` (`main.rs` lines 60-69) as its trace of hardware
events: compute `hgatp = 8 << 60 | ept_root >> 12`, write it to the
hgatp CSR, then execute `hfence.gvma` for all guest-physical mappings. -/
def prepare_vm_pgtable (ept_root : Nat) : List HwEvent :=
  [HwEvent.writeHgatp ((8 <<< 60) ||| (ept_root >>> 12)),
   HwEvent.hfenceGvmaAll]

/-- The guest-entry events of the control loop: one `enterGuest` per
iteration, stopping when the handler does not continue. -/
def loop_events : List VmExit → VmCpuRegisters → CsrState → List HwEvent
  | [], _, _ => []
  | e :: rest, ctx, csr =>
    HwEvent.enterGuest ::
      match vmexit_handler e.cause e.stval ctx csr with
      | .Continue ctx' csr' => loop_events rest ctx' csr'
      | _ => []

/-- The hardware-event trace of `main` from stage-2 activation onward
(`main.rs` lines 50-55): `prepare_vm_pgtable` runs before the first
iteration of the guest-entry loop. -/
def main_events (ept_root : Nat) (exits : List VmExit)
    (ctx : VmCpuRegisters) (csr : CsrState) : List HwEvent :=
  prepare_vm_pgtable ept_root ++ loop_events exits ctx csr

/-- Modelled from the spec: bit position of the hstatus SPV (supervisor
previous virtualization mode) field written by `hstatus::spv::Guest`
(`csrs/defs.rs`, not under `src/`); architecturally bit 7. -/
def HSTATUS_SPV_BIT : Nat := 7

/-- Modelled from the spec: bit position of the hstatus SPVP (supervisor
previous virtual privilege) field written by
`hstatus::spvp::Supervisor` (`csrs/defs.rs`, not under `src/`);
architecturally bit 8. -/
def HSTATUS_SPVP_BIT : Nat := 8

/-- Bit position of the sstatus SPP (supervisor previous privilege)
field set by `sstatus.set_spp(SPP::Supervisor)`; architecturally bit 8. -/
def SSTATUS_SPP_BIT : Nat := 8

/-- A register-field update on a 64-bit CSR value: clear the one-bit
field at `pos`, then or in `v` at `pos` (the semantics of
`LocalRegisterCopy::modify` for a one-bit field, and of `set_spp`). -/
def modifyBit (r : Nat) (pos : Nat) (v : Nat) : Nat :=
  (r &&& ((2 ^ 64 - 1) ^^^ (1 <<< pos))) ||| (v <<< pos)

/-- The guest entry address (`VM_ENTRY = 0x8020_0000`, `main.rs`
line 32). -/
def VM_ENTRY : Nat := 0x80200000

/-- `prepare_guest_context` (`main.rs` lines 166-183): starting from the
current hardware `hstatus` and `sstatus` values, set hstatus.SPV :=
Guest (1) and hstatus.SPVP := Supervisor (1), write the result to the
hstatus CSR and store it in the context; set sstatus.SPP := Supervisor
(1) and store it; set the resume program counter to `VM_ENTRY`.  Returns
the updated context together with the value written to the hstatus CSR.
A total function: pure construction with no failure modes. -/
def prepare_guest_context (hstatus0 sstatus0 : Nat) (ctx : VmCpuRegisters) :
    VmCpuRegisters × Nat :=
  let h1 := modifyBit hstatus0 HSTATUS_SPV_BIT 1
  let h2 := modifyBit h1 HSTATUS_SPVP_BIT 1
  let s1 := modifyBit sstatus0 SSTATUS_SPP_BIT 1
  ({ ctx with guest_regs :=
    { ctx.guest_regs with hstatus := h2, sstatus := s1, sepc := VM_ENTRY } },
   h2)

/-- A concrete register file whose a7/a6 hold the system-reset
identifiers and whose a0/a1 hold the given reason codes; all other
registers are zero.  Used for concrete evaluations. -/
def gprsReset (r0 r1 : Nat) : Gprs := fun i =>
  if i = (17 : Fin 32) then EID_SYSTEM_RESET
  else if i = (16 : Fin 32) then FID_SYSTEM_RESET
  else if i = GprIndexA0 then r0
  else if i = GprIndexA1 then r1
  else 0

/-- The all-zero register file. -/
def gprs0 : Gprs := fun _ => 0

/-- A context with the given register file and resume program counter. -/
def ctxOf (g : Gprs) (pc : Nat) : VmCpuRegisters :=
  { guest_regs := { gprs := g, sepc := pc, hstatus := 0, sstatus := 0 } }

/-- A zeroed CSR state. -/
def csr0 : CsrState := { hvip := 0, sie := 0 }

/-- The context that emulating the sentinel illegal instruction produces
from `ctxOf gprs0 0x1000`. -/
def ctxIllRes : VmCpuRegisters :=
  { guest_regs :=
    { gprs := set_reg (set_reg gprs0 GprIndexA0 0x6688) GprIndexA1 0x1234
      sepc := (0x1000 + 4) % 2 ^ 64
      hstatus := 0
      sstatus := 0 } }

/-- If the a-register slice decodes to a reset message with reasons
`r0`, `r1`, then registers a0 and a1 hold exactly `r0` and `r1`. -/
theorem from_regs_reset_args (g : Gprs) (r0 r1 : Nat)
    (h : SbiMessage.from_regs (a_regs g) = some (SbiMessage.Reset r0 r1)) :
    g GprIndexA0 = r0 ∧ g GprIndexA1 = r1 := by
  unfold SbiMessage.from_regs at h
  split at h
  · injection h with h'
    injection h' with h0 h1
    exact ⟨h0, h1⟩
  · cases h

/-- Claim C2: a VM exit whose cause is a hypervisor call from guest
supervisor mode and whose registers decode to a reset request with the
shutdown-signature reason pair (a0 = 0x6688, a1 = 0x1234) yields outcome
Shutdown with the context untouched, and the control loop terminates
after this exit: exactly one guest entry is made for it and none after. -/
theorem vsEnvCall_shutdown_on_signature (ctx : VmCpuRegisters)
    (csr : CsrState) (stv : Nat)
    (hdec : SbiMessage.from_regs (a_regs ctx.guest_regs.gprs) =
      some (SbiMessage.Reset 0x6688 0x1234)) :
    vmexit_handler (Trap.exception .VirtualSupervisorEnvCall) stv ctx csr =
      DispatchResult.Shutdown ctx csr ∧
    ∀ rest : List VmExit,
      run_loop (⟨Trap.exception .VirtualSupervisorEnvCall, stv⟩ :: rest)
        ctx csr = LoopResult.shutdown 1 := by
  obtain ⟨h0, h1⟩ := from_regs_reset_args _ _ _ hdec
  have hh : vmexit_handler (Trap.exception .VirtualSupervisorEnvCall) stv
      ctx csr = DispatchResult.Shutdown ctx csr := by
    unfold vmexit_handler
    rw [hdec]
    simp [h0, h1]
  refine ⟨hh, fun rest => ?_⟩
  unfold run_loop
  rw [hh]

/-- Witness for C2 at a concrete context carrying the signature pair. -/
theorem vsEnvCall_shutdown_on_signature_witness :
    SbiMessage.from_regs
        (a_regs (ctxOf (gprsReset 0x6688 0x1234) 0x1000).guest_regs.gprs) =
      some (SbiMessage.Reset 0x6688 0x1234) ∧
    vmexit_handler (Trap.exception .VirtualSupervisorEnvCall) 0
        (ctxOf (gprsReset 0x6688 0x1234) 0x1000) csr0 =
      DispatchResult.Shutdown (ctxOf (gprsReset 0x6688 0x1234) 0x1000) csr0 ∧
    run_loop [⟨Trap.exception .VirtualSupervisorEnvCall, 0⟩]
        (ctxOf (gprsReset 0x6688 0x1234) 0x1000) csr0 =
      LoopResult.shutdown 1 :=
  ⟨by decide,
   (vsEnvCall_shutdown_on_signature _ _ _ (by decide)).1,
   (vsEnvCall_shutdown_on_signature _ _ _ (by decide)).2 []⟩

/-- Claim C1 counterexample: at the concrete VM exit whose registers
decode to a reset request with reason codes (1, 2) — not the shutdown
signature — the dispatcher's outcome is not Continue: the run aborts
(the source's `assert_eq!(a0, 0x6688)` fails), refuting the claim that
this branch continues with the program counter unchanged. -/
theorem vsEnvCall_reset_other_codes_not_continue :
    SbiMessage.from_regs
        (a_regs (ctxOf (gprsReset 1 2) 0x1000).guest_regs.gprs) =
      some (SbiMessage.Reset 1 2) ∧
    ¬((1 : Nat) = 0x6688 ∧ (2 : Nat) = 0x1234) ∧
    (vmexit_handler (Trap.exception .VirtualSupervisorEnvCall) 0
        (ctxOf (gprsReset 1 2) 0x1000) csr0).isContinue = false ∧
    vmexit_handler (Trap.exception .VirtualSupervisorEnvCall) 0
        (ctxOf (gprsReset 1 2) 0x1000) csr0 =
      DispatchResult.Abort (ctxOf (gprsReset 1 2) 0x1000) csr0 :=
  ⟨by decide, by decide, rfl, rfl⟩

/-- Claim C1 (amended): a VM exit whose cause is a hypervisor call from
guest supervisor mode and whose registers decode to a reset request
whose reason codes are not the shutdown-signature pair makes the run
abort (a failed assertion), with the context — in particular the resume
program counter — unchanged at the moment of the abort. -/
theorem vsEnvCall_reset_other_codes_abort (ctx : VmCpuRegisters)
    (csr : CsrState) (stv r0 r1 : Nat)
    (hdec : SbiMessage.from_regs (a_regs ctx.guest_regs.gprs) =
      some (SbiMessage.Reset r0 r1))
    (hne : ¬(r0 = 0x6688 ∧ r1 = 0x1234)) :
    vmexit_handler (Trap.exception .VirtualSupervisorEnvCall) stv ctx csr =
      DispatchResult.Abort ctx csr := by
  obtain ⟨h0, h1⟩ := from_regs_reset_args _ _ _ hdec
  unfold vmexit_handler
  rw [hdec]
  by_cases hc0 : r0 = 0x6688
  · by_cases hc1 : r1 = 0x1234
    · exact absurd ⟨hc0, hc1⟩ hne
    · simp [h0, h1, hc0, hc1]
  · simp [h0, h1, hc0]

/-- Witness for the amended C1 at reason codes (1, 2). -/
theorem vsEnvCall_reset_other_codes_abort_witness :
    (SbiMessage.from_regs
        (a_regs (ctxOf (gprsReset 1 2) 0x2000).guest_regs.gprs) =
      some (SbiMessage.Reset 1 2) ∧
     ¬((1 : Nat) = 0x6688 ∧ (2 : Nat) = 0x1234)) ∧
    vmexit_handler (Trap.exception .VirtualSupervisorEnvCall) 3
        (ctxOf (gprsReset 1 2) 0x2000) csr0 =
      DispatchResult.Abort (ctxOf (gprsReset 1 2) 0x2000) csr0 :=
  ⟨⟨by decide, by decide⟩,
   vsEnvCall_reset_other_codes_abort (ctxOf (gprsReset 1 2) 0x2000) csr0 3 1 2
     (by decide) (by decide)⟩

/-- Claim C3: a VM exit whose cause is an illegal-instruction exception
and whose trap-value instruction word (the low 32 bits of stval) is the
sentinel encoding 0xf14025f3 continues with a0 = 0x6688, a1 = 0x1234 and
the resume program counter advanced by exactly 4, the CSR state
untouched. -/
theorem illegal_sentinel_emulated (ctx : VmCpuRegisters) (csr : CsrState)
    (stv : Nat) (hinstr : stv % 2 ^ 32 = SENTINEL_INSTR)
    (hfit : ctx.guest_regs.sepc + 4 < 2 ^ 64) :
    ∃ ctx', vmexit_handler (Trap.exception .IllegalInstruction) stv ctx csr =
        DispatchResult.Continue ctx' csr ∧
      ctx'.guest_regs.gprs GprIndexA0 = 0x6688 ∧
      ctx'.guest_regs.gprs GprIndexA1 = 0x1234 ∧
      ctx'.guest_regs.sepc = ctx.guest_regs.sepc + 4 := by
  refine ⟨{ ctx with guest_regs :=
    { ctx.guest_regs with
      gprs := set_reg (set_reg ctx.guest_regs.gprs GprIndexA0 0x6688)
        GprIndexA1 0x1234
      sepc := (ctx.guest_regs.sepc + 4) % 2 ^ 64 } }, ?_, ?_, ?_, ?_⟩
  · unfold vmexit_handler
    rw [if_pos hinstr]
  · simp [set_reg, show GprIndexA0 ≠ GprIndexA1 from by decide]
  · simp [set_reg]
  · exact Nat.mod_eq_of_lt hfit

/-- Witness for C3 at a concrete context and stval. -/
theorem illegal_sentinel_emulated_witness :
    ((0xf14025f3 : Nat) % 2 ^ 32 = SENTINEL_INSTR ∧
     (ctxOf gprs0 0x1000).guest_regs.sepc + 4 < 2 ^ 64) ∧
    ∃ ctx', vmexit_handler (Trap.exception .IllegalInstruction) 0xf14025f3
        (ctxOf gprs0 0x1000) csr0 = DispatchResult.Continue ctx' csr0 ∧
      ctx'.guest_regs.gprs GprIndexA0 = 0x6688 ∧
      ctx'.guest_regs.gprs GprIndexA1 = 0x1234 ∧
      ctx'.guest_regs.sepc = (ctxOf gprs0 0x1000).guest_regs.sepc + 4 :=
  ⟨⟨by decide, by decide⟩,
   illegal_sentinel_emulated (ctxOf gprs0 0x1000) csr0 0xf14025f3
     (by decide) (by decide)⟩

/-- Claim C4: a VM exit whose cause is an illegal-instruction exception
and whose trap-value instruction word is anything but the sentinel
encoding makes the run abort (panic), with the context — in particular
the resume program counter — unchanged at the moment of the abort; hence
exactly the one sentinel instruction form is emulated. -/
theorem illegal_other_aborts (ctx : VmCpuRegisters) (csr : CsrState)
    (stv : Nat) (hinstr : stv % 2 ^ 32 ≠ SENTINEL_INSTR) :
    vmexit_handler (Trap.exception .IllegalInstruction) stv ctx csr =
      DispatchResult.Abort ctx csr := by
  unfold vmexit_handler
  rw [if_neg hinstr]

/-- Witness for C4 at stval = 0. -/
theorem illegal_other_aborts_witness :
    ((0 : Nat) % 2 ^ 32 ≠ SENTINEL_INSTR) ∧
    vmexit_handler (Trap.exception .IllegalInstruction) 0
        (ctxOf gprs0 0x1000) csr0 =
      DispatchResult.Abort (ctxOf gprs0 0x1000) csr0 :=
  ⟨by decide, illegal_other_aborts (ctxOf gprs0 0x1000) csr0 0 (by decide)⟩

/-- Claim C5: a VM exit whose cause is a guest-physical load page fault
continues with the resume program counter advanced by exactly 4 and
everything else — register file, control state, CSRs — unchanged; the
result does not depend on the faulting address (stval appears nowhere in
it). -/
theorem load_guest_page_fault_skips (ctx : VmCpuRegisters) (csr : CsrState)
    (stv : Nat) (hfit : ctx.guest_regs.sepc + 4 < 2 ^ 64) :
    vmexit_handler (Trap.exception .LoadGuestPageFault) stv ctx csr =
      DispatchResult.Continue
        { ctx with guest_regs :=
          { ctx.guest_regs with sepc := ctx.guest_regs.sepc + 4 } } csr := by
  unfold vmexit_handler
  rw [Nat.mod_eq_of_lt hfit]

/-- Witness for C5 at a concrete context and an arbitrary faulting
address. -/
theorem load_guest_page_fault_skips_witness :
    ((ctxOf gprs0 0x3000).guest_regs.sepc + 4 < 2 ^ 64) ∧
    vmexit_handler (Trap.exception .LoadGuestPageFault) 0xdeadbeef
        (ctxOf gprs0 0x3000) csr0 =
      DispatchResult.Continue
        { ctxOf gprs0 0x3000 with guest_regs :=
          { (ctxOf gprs0 0x3000).guest_regs with
            sepc := (ctxOf gprs0 0x3000).guest_regs.sepc + 4 } } csr0 :=
  ⟨by decide,
   load_guest_page_fault_skips (ctxOf gprs0 0x3000) csr0 0xdeadbeef
     (by decide)⟩

/-- Claim C6: a VM exit whose cause is the supervisor timer interrupt
continues with the guest context entirely unchanged (in particular the
resume program counter), the virtual-supervisor-timer pending bit
(bit 6) set in hvip, and the supervisor-timer enable bit (bit 5) cleared
in sie. -/
theorem timer_irq_forwarded (ctx : VmCpuRegisters) (csr : CsrState)
    (stv : Nat) :
    ∃ csr', vmexit_handler (Trap.interrupt .SupervisorTimer) stv ctx csr =
        DispatchResult.Continue ctx csr' ∧
      csr'.hvip.testBit 6 = true ∧
      csr'.sie.testBit 5 = false := by
  have hb1 : VIRTUAL_SUPERVISOR_TIMER.testBit 6 = true := by decide
  have hb2 : ((2 ^ 64 - 1) ^^^ SUPERVISOR_TIMER).testBit 5 = false := by
    decide
  refine ⟨_, rfl, ?_, ?_⟩
  · show (csr.hvip ||| VIRTUAL_SUPERVISOR_TIMER).testBit 6 = true
    rw [Nat.testBit_lor, hb1, Bool.or_true]
  · show (csr.sie &&& ((2 ^ 64 - 1) ^^^ SUPERVISOR_TIMER)).testBit 5 = false
    rw [Nat.testBit_land, hb2, Bool.and_false]

/-- Claim C7: a hypervisor-call decode failure, and any trap cause other
than the four handled ones (hypervisor call, illegal instruction,
guest-physical load page fault, supervisor timer interrupt), is fatal:
the dispatcher aborts with the context as it stands, and the control
loop makes no further guest entry — the run ends at this exit. -/
theorem unhandled_or_undecodable_fatal (cause : Trap) (stv : Nat)
    (ctx : VmCpuRegisters) (csr : CsrState)
    (h : (cause = Trap.exception .VirtualSupervisorEnvCall ∧
            SbiMessage.from_regs (a_regs ctx.guest_regs.gprs) = none) ∨
         (cause ≠ Trap.exception .VirtualSupervisorEnvCall ∧
          cause ≠ Trap.exception .IllegalInstruction ∧
          cause ≠ Trap.exception .LoadGuestPageFault ∧
          cause ≠ Trap.interrupt .SupervisorTimer)) :
    vmexit_handler cause stv ctx csr = DispatchResult.Abort ctx csr ∧
    ∀ rest : List VmExit,
      run_loop (⟨cause, stv⟩ :: rest) ctx csr = LoopResult.aborted 1 := by
  have habort : vmexit_handler cause stv ctx csr =
      DispatchResult.Abort ctx csr := by
    rcases h with ⟨hc, hdec⟩ | ⟨h1, h2, h3, h4⟩
    · subst hc
      unfold vmexit_handler
      rw [hdec]
    · cases cause with
      | exception e =>
        cases e <;> first
          | rfl
          | exact absurd rfl h1
          | exact absurd rfl h2
          | exact absurd rfl h3
      | interrupt i =>
        cases i <;> first
          | rfl
          | exact absurd rfl h4
  refine ⟨habort, fun rest => ?_⟩
  unfold run_loop
  rw [habort]

/-- Witness for C7, decode-failure side: an all-zero register file does
not decode (a7 does not hold the reset extension id). -/
theorem unhandled_or_undecodable_fatal_witness :
    (SbiMessage.from_regs (a_regs (ctxOf gprs0 0x1000).guest_regs.gprs) =
      none) ∧
    vmexit_handler (Trap.exception .VirtualSupervisorEnvCall) 0
        (ctxOf gprs0 0x1000) csr0 =
      DispatchResult.Abort (ctxOf gprs0 0x1000) csr0 ∧
    run_loop [⟨Trap.exception .VirtualSupervisorEnvCall, 0⟩]
        (ctxOf gprs0 0x1000) csr0 = LoopResult.aborted 1 ∧
    vmexit_handler (Trap.exception .Breakpoint) 0 (ctxOf gprs0 0x1000)
        csr0 = DispatchResult.Abort (ctxOf gprs0 0x1000) csr0 :=
  ⟨by decide,
   (unhandled_or_undecodable_fatal _ 0 (ctxOf gprs0 0x1000) csr0
     (Or.inl ⟨rfl, by decide⟩)).1,
   (unhandled_or_undecodable_fatal _ 0 (ctxOf gprs0 0x1000) csr0
     (Or.inl ⟨rfl, by decide⟩)).2 [],
   (unhandled_or_undecodable_fatal _ 0 (ctxOf gprs0 0x1000) csr0
     (Or.inr (by decide))).1⟩

/-- Setting a one-bit field sets the bit at its position. -/
theorem testBit_modifyBit_self (r pos : Nat) :
    (modifyBit r pos 1).testBit pos = true := by
  unfold modifyBit
  rw [Nat.testBit_lor, Nat.one_shiftLeft, @Nat.testBit_two_pow_self pos,
    Bool.or_true]

/-- Setting a one-bit field leaves every other bit below 64 unchanged. -/
theorem testBit_modifyBit_other (r pos q : Nat) (hq : q < 64)
    (hne : pos ≠ q) :
    (modifyBit r pos 1).testBit q = r.testBit q := by
  unfold modifyBit
  rw [Nat.testBit_lor, Nat.testBit_land, Nat.testBit_xor, Nat.one_shiftLeft,
    Nat.testBit_two_pow_of_ne hne, Nat.testBit_two_pow_sub_one]
  simp [hq]

/-- Claim C8: `prepare_guest_context` — a total, pure construction —
produces a context whose hstatus has the SPV (guest return mode) bit and
the SPVP (previous virtual privilege = supervisor) bit set, whose
sstatus has the SPP (previous privilege = supervisor) bit set, and whose
resume program counter is the fixed guest entry address 0x80200000; the
value written to the hstatus CSR is the same stored hstatus value. -/
theorem guest_context_initialized (hstatus0 sstatus0 : Nat)
    (ctx : VmCpuRegisters) :
    (prepare_guest_context hstatus0 sstatus0 ctx).1.guest_regs.hstatus.testBit
        HSTATUS_SPV_BIT = true ∧
    (prepare_guest_context hstatus0 sstatus0 ctx).1.guest_regs.hstatus.testBit
        HSTATUS_SPVP_BIT = true ∧
    (prepare_guest_context hstatus0 sstatus0 ctx).1.guest_regs.sstatus.testBit
        SSTATUS_SPP_BIT = true ∧
    (prepare_guest_context hstatus0 sstatus0 ctx).1.guest_regs.sepc =
      VM_ENTRY ∧
    (prepare_guest_context hstatus0 sstatus0 ctx).2 =
      (prepare_guest_context hstatus0 sstatus0 ctx).1.guest_regs.hstatus := by
  refine ⟨?_, ?_, ?_, rfl, rfl⟩
  · show (modifyBit (modifyBit hstatus0 HSTATUS_SPV_BIT 1) HSTATUS_SPVP_BIT
      1).testBit HSTATUS_SPV_BIT = true
    rw [testBit_modifyBit_other _ _ _ (by decide) (by decide),
      testBit_modifyBit_self]
  · exact testBit_modifyBit_self _ _
  · exact testBit_modifyBit_self _ _

/-- Claim C9: the hardware-event trace of `main` from stage-2 activation
onward starts with the hgatp write carrying exactly the value
`8 <<< 60 ||| ept_root >>> 12` (the Sv39x4 mode tag and the page-table
root frame number), immediately followed by the global guest-physical
translation invalidation, and every guest entry of the run comes after
both. -/
theorem stage2_activation_events (ept_root : Nat) (exits : List VmExit)
    (ctx : VmCpuRegisters) (csr : CsrState) :
    ∃ rest, main_events ept_root exits ctx csr =
        HwEvent.writeHgatp ((8 <<< 60) ||| (ept_root >>> 12)) ::
          HwEvent.hfenceGvmaAll :: rest ∧
      rest = loop_events exits ctx csr :=
  ⟨loop_events exits ctx csr, rfl, rfl⟩

/-- The hypervisor-call branch never yields Continue: every path through
it shuts down or aborts. -/
theorem vsEnvCall_never_continue (stv : Nat) (ctx : VmCpuRegisters)
    (csr : CsrState) :
    (vmexit_handler (Trap.exception .VirtualSupervisorEnvCall) stv ctx
      csr).isContinue = false := by
  unfold vmexit_handler
  cases hd : SbiMessage.from_regs (a_regs ctx.guest_regs.gprs) with
  | none => rfl
  | some m =>
    cases m with
    | Reset r0 r1 =>
      by_cases h0 : ctx.guest_regs.gprs GprIndexA0 = 0x6688 <;>
        by_cases h1 : ctx.guest_regs.gprs GprIndexA1 = 0x1234 <;>
        simp [h0, h1, DispatchResult.isContinue]

/-- Claim C10: on every VM exit on which the dispatcher yields Continue,
all guest general-purpose registers other than a0 and a1 are unchanged;
the whole register file is unchanged unless the cause is the
illegal-instruction exception; and the resume program counter is
advanced (by 4, modulo the 64-bit register width) exactly when the cause
is the illegal-instruction or load-guest-page-fault exception, and is
unchanged for every other cause. -/
theorem continue_frame_conditions (cause : Trap) (stv : Nat)
    (ctx ctx' : VmCpuRegisters) (csr csr' : CsrState)
    (h : vmexit_handler cause stv ctx csr =
      DispatchResult.Continue ctx' csr') :
    (∀ i : Fin 32, i ≠ GprIndexA0 → i ≠ GprIndexA1 →
      ctx'.guest_regs.gprs i = ctx.guest_regs.gprs i) ∧
    (cause ≠ Trap.exception .IllegalInstruction →
      ctx'.guest_regs.gprs = ctx.guest_regs.gprs) ∧
    ((cause = Trap.exception .IllegalInstruction ∨
        cause = Trap.exception .LoadGuestPageFault) →
      ctx'.guest_regs.sepc = (ctx.guest_regs.sepc + 4) % 2 ^ 64 ∧
      (ctx.guest_regs.sepc + 4 < 2 ^ 64 →
        ctx'.guest_regs.sepc = ctx.guest_regs.sepc + 4)) ∧
    ((cause ≠ Trap.exception .IllegalInstruction ∧
        cause ≠ Trap.exception .LoadGuestPageFault) →
      ctx'.guest_regs.sepc = ctx.guest_regs.sepc) := by
  cases cause with
  | exception e =>
    cases e with
    | VirtualSupervisorEnvCall =>
      have hnc := vsEnvCall_never_continue stv ctx csr
      rw [h] at hnc
      cases hnc
    | IllegalInstruction =>
      by_cases hi : stv % 2 ^ 32 = SENTINEL_INSTR
      · have hred : vmexit_handler (Trap.exception .IllegalInstruction) stv
            ctx csr = DispatchResult.Continue
            { ctx with guest_regs :=
              { ctx.guest_regs with
                gprs := set_reg (set_reg ctx.guest_regs.gprs GprIndexA0
                  0x6688) GprIndexA1 0x1234
                sepc := (ctx.guest_regs.sepc + 4) % 2 ^ 64 } } csr := by
          unfold vmexit_handler
          rw [if_pos hi]
        rw [hred] at h
        injection h with hctx hcsr
        subst hctx
        refine ⟨?_, ?_, ?_, ?_⟩
        · intro i hi0 hi1
          simp [set_reg, hi0, hi1]
        · intro hne
          exact absurd rfl hne
        · intro _
          exact ⟨rfl, fun hfit => Nat.mod_eq_of_lt hfit⟩
        · rintro ⟨hne, _⟩
          exact absurd rfl hne
      · have hred : vmexit_handler (Trap.exception .IllegalInstruction) stv
            ctx csr = DispatchResult.Abort ctx csr := by
          unfold vmexit_handler
          rw [if_neg hi]
        rw [hred] at h
        cases h
    | LoadGuestPageFault =>
      have hred : vmexit_handler (Trap.exception .LoadGuestPageFault) stv
          ctx csr = DispatchResult.Continue
          { ctx with guest_regs :=
            { ctx.guest_regs with
              sepc := (ctx.guest_regs.sepc + 4) % 2 ^ 64 } } csr := rfl
      rw [hred] at h
      injection h with hctx hcsr
      subst hctx
      refine ⟨fun i _ _ => rfl, fun _ => rfl, ?_, ?_⟩
      · intro _
        exact ⟨rfl, fun hfit => Nat.mod_eq_of_lt hfit⟩
      · rintro ⟨_, hne⟩
        exact absurd rfl hne
    | InstructionMisaligned => exact absurd h (by simp [vmexit_handler])
    | InstructionFault => exact absurd h (by simp [vmexit_handler])
    | Breakpoint => exact absurd h (by simp [vmexit_handler])
    | LoadMisaligned => exact absurd h (by simp [vmexit_handler])
    | LoadFault => exact absurd h (by simp [vmexit_handler])
    | StoreMisaligned => exact absurd h (by simp [vmexit_handler])
    | StoreFault => exact absurd h (by simp [vmexit_handler])
    | UserEnvCall => exact absurd h (by simp [vmexit_handler])
    | SupervisorEnvCall => exact absurd h (by simp [vmexit_handler])
    | InstructionPageFault => exact absurd h (by simp [vmexit_handler])
    | LoadPageFault => exact absurd h (by simp [vmexit_handler])
    | StorePageFault => exact absurd h (by simp [vmexit_handler])
    | InstructionGuestPageFault => exact absurd h (by simp [vmexit_handler])
    | VirtualInstruction => exact absurd h (by simp [vmexit_handler])
    | StoreGuestPageFault => exact absurd h (by simp [vmexit_handler])
    | Unknown => exact absurd h (by simp [vmexit_handler])
  | interrupt i =>
    cases i with
    | SupervisorTimer =>
      have hred : vmexit_handler (Trap.interrupt .SupervisorTimer) stv ctx
          csr = DispatchResult.Continue ctx
          { csr with
            hvip := csr.hvip ||| VIRTUAL_SUPERVISOR_TIMER
            sie := csr.sie &&& ((2 ^ 64 - 1) ^^^ SUPERVISOR_TIMER) } := rfl
      rw [hred] at h
      injection h with hctx hcsr
      subst hctx
      refine ⟨fun i _ _ => rfl, fun _ => rfl, ?_, fun _ => rfl⟩
      rintro (hc | hc) <;> cases hc
    | UserSoft => exact absurd h (by simp [vmexit_handler])
    | VirtualSupervisorSoft => exact absurd h (by simp [vmexit_handler])
    | SupervisorSoft => exact absurd h (by simp [vmexit_handler])
    | MachineSoft => exact absurd h (by simp [vmexit_handler])
    | UserTimer => exact absurd h (by simp [vmexit_handler])
    | VirtualSupervisorTimer => exact absurd h (by simp [vmexit_handler])
    | MachineTimer => exact absurd h (by simp [vmexit_handler])
    | UserExternal => exact absurd h (by simp [vmexit_handler])
    | VirtualSupervisorExternal => exact absurd h (by simp [vmexit_handler])
    | SupervisorExternal => exact absurd h (by simp [vmexit_handler])
    | MachineExternal => exact absurd h (by simp [vmexit_handler])
    | Unknown => exact absurd h (by simp [vmexit_handler])

/-- Witness for C10 at the emulated illegal-instruction exit, where the
frame is exercised non-trivially: a0/a1 change, register 5 does not, and
sepc advances. -/
theorem continue_frame_conditions_witness :
    vmexit_handler (Trap.exception .IllegalInstruction) 0xf14025f3
        (ctxOf gprs0 0x1000) csr0 = DispatchResult.Continue ctxIllRes csr0 ∧
    ctxIllRes.guest_regs.gprs 5 = (ctxOf gprs0 0x1000).guest_regs.gprs 5 ∧
    ctxIllRes.guest_regs.sepc =
      ((ctxOf gprs0 0x1000).guest_regs.sepc + 4) % 2 ^ 64 :=
  ⟨by rfl,
   (continue_frame_conditions (Trap.exception .IllegalInstruction)
     0xf14025f3 (ctxOf gprs0 0x1000) ctxIllRes csr0 csr0 (by rfl)).1 5
     (by decide) (by decide),
   ((continue_frame_conditions (Trap.exception .IllegalInstruction)
     0xf14025f3 (ctxOf gprs0 0x1000) ctxIllRes csr0 csr0 (by rfl)).2.2.1
     (Or.inl rfl)).1⟩

end SimpleHv
